import Mathlib

/-!
Shallow embedding of the chat route `src/app/api/chat/route.ts` of the
retrieval-augmented chat pipeline, together with theorems settling the
specification claims about it.

External effects (embedding provider, vector store, completion provider,
memory store) are modelled by an environment `Env` supplying their results
and by an explicit trace of `Event`s recording which external calls the
handler performs, in order.
-/

namespace Chat

/-- Message role, mirroring `role: 'system' | 'user' | 'assistant'`. -/
inductive Role where
  | system
  | user
  | assistant
deriving DecidableEq, Repr

/-- Mirrors `interface Message { role; content: string }`. -/
structure Message where
  role : Role
  content : String
deriving DecidableEq, Repr

/-- Mirrors `type Persona = 'general' | 'roleplay'`. -/
inductive Persona where
  | general
  | roleplay
deriving DecidableEq, Repr

/-- A JSON value appearing in the `persona` field of the request body:
either a string or some non-string value (number, null, object, ...),
which `Array.prototype.includes` can never equate to the template keys. -/
inductive JValue where
  | str (s : String)
  | other
deriving DecidableEq, Repr

/-- `SYSTEM_PROMPTS.general` from the source, transcribed verbatim. -/
def generalSystemPrompt : String :=
  "You are a specialized assistant with the following guidelines:\n\n1. Conversational Approach:\n   - Maintain a friendly and natural dialog flow\n   - Use a warm, approachable tone\n   - Show genuine interest in user questions\n   - Engage in a way that encourages continued conversation\n\n2. Content Restrictions:\n   - Base all responses strictly on the provided context and conversation history\n   - Do not use any external knowledge\n   - Avoid making assumptions beyond what is explicitly stated\n   - Format numerical data and statistics exactly as they appear in the context\n\n3. Response Guidelines:\n   - When information is available: Provide accurate answers while maintaining a conversational tone\n   - When information is missing: Say \"I wish I could help with that, but I don\x27t have enough information in the provided documentation to answer your question. Is there something else you\x27d like to know about?\"\n   - For follow-up questions: Verify that previous responses were based on documented content\n\n4. Quality Standards:\n   - Ensure accuracy while remaining approachable\n   - Balance professionalism with conversational friendliness\n   - Maintain consistency in information provided\n   - Keep responses clear and engaging"

/-- `SYSTEM_PROMPTS.roleplay` from the source, transcribed verbatim. -/
def roleplaySystemPrompt : String :=
  "\nThis Teach-Back is an activity where the user practices a skill they just learned in an online course. Refer to the course storyboard as well as the course assessment to provide you with context. This activity will be scored and should reference only the material in the uploaded documents. You may reference other material in your feedback, but the scoring should be based solely on the course content. This activity is in section 2.2 of course 103. I have outlined how the activity is structured below.\n\nWhen the user clicks \"begin,\" briefly describe the activity as a teach-back in which they\x27ll receive personalized feedback based on their answer. Also, state the two rubric areas (Comprehensiveness and Clarity & Structure, each accounting for 4 points) and what a passing score is. Then, show the question: \"Explain how drug pricing benchmarks impact pharmacy costs and reimbursement, and why this matters in pharmacy benefits consulting.\"\n\nAfter they submit their answer, grade them based on the rubric below and show them their score in each rubric area, along with what could be improved. Continue providing guidance to refine their answer until they achieve a score of 8/8, then summarize their response into a final statement and congratulate them. Instruct them to proceed in the course.\n\nWhen a user clicks \"instructions,\" explain in detail how the activity works and highlight that they are aiming for mastery, and you will support them in achieving it. Show the full rubric and what their response should include (the 3 bullets below).\n\nThe user\x27s response should include:\n\n✔ A clear explanation of key drug pricing benchmarks (AWP, WAC, MAC, NADAC) and how they function.\n\n✔ An analysis of how these benchmarks influence pharmacy costs and reimbursement structures.\n\n✔ A connection to pharmacy benefits consulting, including how understanding benchmarks supports cost management and plan design.\n\nEvaluation Criteria: The user\x27s response will be scored based on the rubric below, with a total of 8 possible points. To pass, they need at least 6 points.\n\nScoring Rubric (8 Points Total)\n\nComprehensiveness\n\n4: Clearly defines key drug pricing benchmarks, explains their role in pharmacy costs and reimbursement, and connects them to pharmacy benefits consulting.\n\n3: Mentions key drug pricing benchmarks and cost impact but lacks a full explanation or consulting connection.\n\n2: Provides a vague or incomplete definition of drug pricing benchmarks with little explanation of cost impact or relevance to consulting.\n\n1: Response is unclear, incorrect, or missing key details.\n\nClarity & Structure\n\n4: Explanation is clear, well-organized, and easy to follow.\n\n3: Mostly clear but could be better structured or more concise.\n\n2: Somewhat unclear or disorganized.\n\n1: Hard to follow or confusing.\n\n✅ Passing Score: 6+ out of \n\nExample Response: \nDrug pricing benchmarks are essential in pharmacy benefits consulting as they determine how pharmacies are reimbursed and influence overall drug costs. AWP (Average Wholesale Price) is a benchmark for estimating drug prices, though often inflated. WAC (Wholesale Acquisition Cost) is the manufacturer\x27s list price before rebates. MAC (Maximum Allowable Cost) limits reimbursement for generics, while NADAC (National Average Drug Acquisition Cost) reflects actual pharmacy costs. Consultants use these benchmarks to negotiate pricing, optimize formulary management, and control plan costs effectively.\n"

/-- Mirrors the record `SYSTEM_PROMPTS: Record<Persona, string>`. -/
def SYSTEM_PROMPTS : Persona → String
  | .general => generalSystemPrompt
  | .roleplay => roleplaySystemPrompt

/-- Mirrors `isValidPersona`: `['general', 'roleplay'].includes(persona)`.
A non-string JSON value is never strictly equal to either key. -/
def isValidPersona : JValue → Bool
  | .str s => s = "general" || s = "roleplay"
  | .other => false

/-- Resolution of the request persona, mirroring
`const { ..., persona: rawPersona = 'general' } = await req.json()`
(the default applies when the field is absent) followed by
`const persona = isValidPersona(rawPersona) ? rawPersona : 'general'`.
When valid, the raw string is one of the two keys and narrows to `Persona`. -/
def resolvePersona (raw : Option JValue) : Persona :=
  let rawPersona := raw.getD (JValue.str "general")
  if isValidPersona rawPersona then
    match rawPersona with
    | .str "roleplay" => Persona.roleplay
    | _ => Persona.general
  else Persona.general

/-- The JavaScript regex class matched by a pattern character class for
whitespace, restricted to the code points the greeting patterns can meet. -/
def isSpaceJS (c : Char) : Bool :=
  c = ' ' || c = '\t' || c = '\n' || c = '\r' || c = '\x0b' || c = '\x0c' || c = '\u00A0'

/-- `startsWithWord word allowQM s` holds when the character list `s` begins
with `word` followed by end-of-string, a whitespace character, or (when
`allowQM` is set) a question mark.  This is the semantics of an anchored
regex alternative such as `^hello(\s|$)` or `^sup(\?|\s|$)`. -/
def startsWithWord (word : List Char) (allowQM : Bool) (s : List Char) : Bool :=
  match word, s with
  | [], [] => true
  | [], c :: _ => isSpaceJS c || (allowQM && c = '?')
  | _ :: _, [] => false
  | w :: ws, c :: cs => w = c && startsWithWord ws allowQM cs

/-- The alternatives of the first greeting pattern
`^(hi|hello|hey|good morning|good afternoon|good evening|greetings)(\s|$)`. -/
def greetingWords1 : List String :=
  ["hi", "hello", "hey", "good morning", "good afternoon", "good evening", "greetings"]

/-- The alternatives of the second greeting pattern
`^(how are you|what's up|wassup|sup)(\?|\s|$)`. -/
def greetingWords2 : List String :=
  ["how are you", "what\x27s up", "wassup", "sup"]

/-- The alternatives of the third greeting pattern
`^(hola|bonjour|hallo|ciao)(\s|$)`. -/
def greetingWords3 : List String :=
  ["hola", "bonjour", "hallo", "ciao"]

/-- `query.trim()`: drop leading and trailing whitespace. -/
def trimJS (s : List Char) : List Char :=
  ((s.dropWhile isSpaceJS).reverse.dropWhile isSpaceJS).reverse

/-- Mirrors `isGreeting`: trim and lower-case the query
(`query.trim().toLowerCase()`), then test the three anchored alternation
patterns (the `i` flag is absorbed by lower-casing). -/
def isGreeting (query : String) : Bool :=
  let s := (trimJS query.toList).map Char.toLower
  greetingWords1.any (fun w => startsWithWord w.toList false s)
  || greetingWords2.any (fun w => startsWithWord w.toList true s)
  || greetingWords3.any (fun w => startsWithWord w.toList false s)

/-- The fixed candidate replies of `getGreetingResponse`. -/
def greetings : List String :=
  ["👋 Hello! How can I assist you today?",
   "Hi there! 😊 What can I help you with?",
   "👋 Hey! Ready to help you with any questions!",
   "Hello! 🌟 How may I be of assistance?",
   "Hi! 😃 Looking forward to helping you today!"]

/-- Mirrors `getGreetingResponse`: `greetings[Math.floor(Math.random() * greetings.length)]`.
`Math.random()` lies in `[0, 1)`, so the floored index is a value of `Fin 5`;
the randomness source is the explicit argument.  The `getD` default is never
used since the index is in range. -/
def getGreetingResponse (r : Fin 5) : String :=
  greetings.getD r.val ""

/-- One row scored by the vector store for a query: the row text `contents`
together with the cosine distance `vector <=> $1::vector` that the store
computes between the stored vector and the query embedding. -/
structure ScoredRow where
  contents : String
  dist : ℚ
deriving DecidableEq, Repr

/-- The `similarity` column of the SQL query: `1 - (vector <=> $1::vector)`. -/
def similarity (row : ScoredRow) : ℚ := 1 - row.dist

/-- Insertion of a row into a list sorted by descending similarity;
helper for the `ORDER BY similarity DESC` clause. -/
def insertDesc (x : ScoredRow) : List ScoredRow → List ScoredRow
  | [] => [x]
  | y :: ys => if similarity y ≤ similarity x then x :: y :: ys else y :: insertDesc x ys

/-- Sorting by descending similarity (`ORDER BY similarity DESC`; the SQL
order among ties is store-defined, so any ordering of ties is faithful). -/
def sortDesc : List ScoredRow → List ScoredRow
  | [] => []
  | x :: xs => insertDesc x (sortDesc xs)

/-- The row list produced by the SQL query of `findSimilarContent`:
`WHERE 1 - (vector <=> $1::vector) > 0.7 ORDER BY similarity DESC LIMIT 5`. -/
def similarRows (rows : List ScoredRow) : List ScoredRow :=
  (sortDesc (rows.filter (fun row => (0.7 : ℚ) < similarity row))).take 5

/-- Mirrors `findSimilarContent`: run the similarity query and join the
`contents` of the resulting rows with `'\n\n'`
(`result.rows.map(row => row.contents).join('\n\n')`). -/
def findSimilarContent (rows : List ScoredRow) : String :=
  String.intercalate "\n\n" ((similarRows rows).map ScoredRow.contents)

/-- The environment a single request runs in: the results the external
collaborators would return. -/
structure Env where
  /-- The vector returned by the embedding provider for the query
  (`response.data[0].embedding`). -/
  embedResult : List ℚ
  /-- The rows of `documents_2` as scored against the query embedding. -/
  dbRows : List ScoredRow
  /-- The floored random index drawn inside `getGreetingResponse`. -/
  randIdx : Fin 5

/-- Mirrors `getQueryEmbedding`: the provider returns the embedding vector
supplied by the environment. -/
def getQueryEmbedding (env : Env) (_query : String) : List ℚ :=
  env.embedResult

/-- The request body as far as `POST` destructures it: `messages` may be
absent (`undefined`), `persona` may be absent or any JSON value. -/
structure RequestBody where
  messages : Option (List Message)
  userId : String
  persona : Option JValue
deriving DecidableEq, Repr

/-- An external call performed by the handler, recorded in order. -/
inductive Event where
  /-- `openai.embeddings.create` inside `getQueryEmbedding`. -/
  | embedCall (query : String)
  /-- `pool.query` inside `findSimilarContent`. -/
  | dbCall (embedding : List ℚ)
  /-- `streamText({ model: mem0(...), messages })`. -/
  | streamCall (msgs : List Message) (userId : String)
  /-- `addMemories(msgs, { user_id, mem0ApiKey })`. -/
  | memoryCall (msgs : List Message) (userId : String)
deriving DecidableEq, Repr

/-- Whether an event is a call to the embedding provider. -/
def Event.isEmbed : Event → Bool
  | .embedCall _ => true
  | _ => false

/-- Whether an event is a query against the vector store. -/
def Event.isDb : Event → Bool
  | .dbCall _ => true
  | _ => false

/-- Whether an event is a completion-streaming call. -/
def Event.isStream : Event → Bool
  | .streamCall _ _ => true
  | _ => false

/-- Whether an event is a memory-store write. -/
def Event.isMemory : Event → Bool
  | .memoryCall _ _ => true
  | _ => false

/-- The handler's response: a data-stream response produced by `streamText`
over the given message list, or the catch-all
`new Response(JSON.stringify({ error: 'Internal Server Error' }), { status: 500 })`. -/
inductive ChatResponse where
  | stream (msgs : List Message)
  | error500
deriving DecidableEq, Repr

/-- The local `systemPrompt` of the non-greeting path:
the persona template followed by the labeled documentation-context section
(template-literal interpolation of `similarContent`). -/
def systemPromptFor (env : Env) (persona : Persona) : String :=
  SYSTEM_PROMPTS persona ++ "\n\nDocumentation Context: " ++ findSimilarContent env.dbRows

/-- The local `updatedMessages` of the non-greeting path: the composed
system message, the mapped previous messages, and the latest user turn. -/
def updatedMessagesFor (env : Env) (persona : Persona)
    (previousMessages : List Message) (userQuery : String) : List Message :=
  ⟨Role.system, systemPromptFor env persona⟩ ::
    (previousMessages.map (fun msg => ⟨msg.role, msg.content⟩) ++
      [⟨Role.user, userQuery⟩])

/-- The `messages` array passed to `streamText` on the greeting path:
persona system prompt, previous messages, the user greeting, and the chosen
assistant reply. -/
def greetingStreamMessagesFor (persona : Persona) (previousMessages : List Message)
    (userQuery greetingResponse : String) : List Message :=
  ⟨Role.system, SYSTEM_PROMPTS persona⟩ ::
    (previousMessages ++
      [⟨Role.user, userQuery⟩, ⟨Role.assistant, greetingResponse⟩])

/-- The array `[...previousMessages, ...greetingMessages]` passed to
`addMemories` on the greeting path. -/
def greetingMemoryMessagesFor (previousMessages : List Message)
    (userQuery greetingResponse : String) : List Message :=
  previousMessages ++ [⟨Role.user, userQuery⟩, ⟨Role.assistant, greetingResponse⟩]

/-- The message lists handed to the memory store by the events of a trace,
in order. -/
def memoryPayloads : List Event → List (List Message)
  | [] => []
  | Event.memoryCall msgs _ :: es => msgs :: memoryPayloads es
  | _ :: es => memoryPayloads es

/-- Shallow embedding of the `POST` handler of `src/app/api/chat/route.ts`.
`body = none` models a request whose JSON parsing throws; a missing
`messages` field makes `messages[messages.length - 1]` throw, and an empty
`messages` list makes `messages[-1].content` throw — each lands in the
`catch` block with no external call made.  The returned trace lists the
external calls in program order. -/
def runPOST (env : Env) (body : Option RequestBody) : List Event × ChatResponse :=
  match body with
  | none => ([], ChatResponse.error500)
  | some b =>
    match b.messages with
    | none => ([], ChatResponse.error500)
    | some messages =>
      let persona := resolvePersona b.persona
      match messages.getLast? with
      | none => ([], ChatResponse.error500)
      | some lastMessage =>
        let userQuery := lastMessage.content
        let previousMessages := messages.dropLast
        if isGreeting userQuery then
          let greetingResponse := getGreetingResponse env.randIdx
          let streamMessages :=
            greetingStreamMessagesFor persona previousMessages userQuery greetingResponse
          ([Event.streamCall streamMessages b.userId,
            Event.memoryCall
              (greetingMemoryMessagesFor previousMessages userQuery greetingResponse)
              b.userId],
           ChatResponse.stream streamMessages)
        else
          let embedding := getQueryEmbedding env userQuery
          let updatedMessages := updatedMessagesFor env persona previousMessages userQuery
          let finalMessages := updatedMessages
          ([Event.embedCall userQuery, Event.dbCall embedding,
            Event.streamCall updatedMessages b.userId,
            Event.memoryCall finalMessages b.userId],
           ChatResponse.stream updatedMessages)


/-! ### Helper lemmas -/

/-- Membership after insertion into a descending list. -/
theorem mem_insertDesc {z x : ScoredRow} {l : List ScoredRow}
    (h : z ∈ insertDesc x l) : z = x ∨ z ∈ l := by
  induction l with
  | nil => simpa [insertDesc] using h
  | cons y ys ih =>
    by_cases hc : similarity y ≤ similarity x
    · simp only [insertDesc, if_pos hc, List.mem_cons] at h
      rcases h with rfl | h
      · exact Or.inl rfl
      · exact Or.inr (List.mem_cons.mpr h)
    · simp only [insertDesc, if_neg hc, List.mem_cons] at h
      rcases h with rfl | h
      · exact Or.inr (List.mem_cons_self _ _)
      · rcases ih h with rfl | h
        · exact Or.inl rfl
        · exact Or.inr (List.mem_cons_of_mem _ h)

/-- Insertion preserves the descending-similarity invariant. -/
theorem pairwise_insertDesc (x : ScoredRow) (l : List ScoredRow)
    (h : l.Pairwise fun a b => similarity b ≤ similarity a) :
    (insertDesc x l).Pairwise fun a b => similarity b ≤ similarity a := by
  induction l with
  | nil => simp [insertDesc]
  | cons y ys ih =>
    rw [List.pairwise_cons] at h
    obtain ⟨hy, hys⟩ := h
    by_cases hc : similarity y ≤ similarity x
    · simp only [insertDesc, if_pos hc]
      refine List.pairwise_cons.mpr ⟨?_, List.pairwise_cons.mpr ⟨hy, hys⟩⟩
      intro z hz
      rcases List.mem_cons.mp hz with rfl | hz
      · exact hc
      · exact le_trans (hy z hz) hc
    · simp only [insertDesc, if_neg hc]
      refine List.pairwise_cons.mpr ⟨?_, ih hys⟩
      intro z hz
      rcases mem_insertDesc hz with rfl | hz
      · exact le_of_not_le hc
      · exact hy z hz

/-- Sorting does not introduce rows. -/
theorem mem_sortDesc {z : ScoredRow} {l : List ScoredRow}
    (h : z ∈ sortDesc l) : z ∈ l := by
  induction l with
  | nil => simp [sortDesc] at h
  | cons x xs ih =>
    rcases mem_insertDesc (show z ∈ insertDesc x (sortDesc xs) from h) with rfl | h2
    · exact List.mem_cons_self _ _
    · exact List.mem_cons_of_mem _ (ih h2)

/-- `sortDesc` yields a list sorted by descending similarity. -/
theorem pairwise_sortDesc (l : List ScoredRow) :
    (sortDesc l).Pairwise fun a b => similarity b ≤ similarity a := by
  induction l with
  | nil => simp [sortDesc]
  | cons x xs ih => exact pairwise_insertDesc x _ ih

/-- Structure eta for message lists: the identity re-packing performed by
`previousMessages.map(msg => ({role, content}))`. -/
theorem map_mk_eta (l : List Message) :
    l.map (fun msg => Message.mk msg.role msg.content) = l := by
  induction l with
  | nil => rfl
  | cons x xs ih => simp [ih]

/-! ### Claim theorems -/

/-- C2: for every embedding input, the retrieved context is the
`"\n\n"`-joined contents of the rows selected by the similarity query:
at most 5 rows, every selected row has similarity `1 - dist` strictly above
`0.7`, and the rows are ordered by descending similarity. -/
theorem findSimilarContent_spec (rows : List ScoredRow) :
    findSimilarContent rows =
      String.intercalate "\n\n" ((similarRows rows).map ScoredRow.contents) ∧
    (similarRows rows).length ≤ 5 ∧
    (∀ row ∈ similarRows rows, (0.7 : ℚ) < similarity row) ∧
    (similarRows rows).Pairwise (fun a b => similarity b ≤ similarity a) := by
  refine ⟨rfl, ?_, ?_, ?_⟩
  · have := List.length_take 5 (sortDesc (rows.filter fun row => (0.7 : ℚ) < similarity row))
    simp only [similarRows, this]
    exact min_le_left _ _
  · intro row hrow
    have h1 : row ∈ sortDesc (rows.filter fun row => (0.7 : ℚ) < similarity row) :=
      (List.take_sublist _ _).mem hrow
    have h2 := mem_sortDesc h1
    have h3 := (List.mem_filter.mp h2).2
    exact of_decide_eq_true h3
  · exact (pairwise_sortDesc _).sublist (List.take_sublist _ _)

/-- Shape of the handler on the greeting path. -/
theorem runPOST_greeting_eq (env : Env) (b : RequestBody) (msgs : List Message)
    (last : Message) (hm : b.messages = some msgs) (hl : msgs.getLast? = some last)
    (hg : isGreeting last.content = true) :
    runPOST env (some b) =
      ([Event.streamCall
          (greetingStreamMessagesFor (resolvePersona b.persona) msgs.dropLast
            last.content (getGreetingResponse env.randIdx)) b.userId,
        Event.memoryCall
          (greetingMemoryMessagesFor msgs.dropLast last.content
            (getGreetingResponse env.randIdx)) b.userId],
       ChatResponse.stream
         (greetingStreamMessagesFor (resolvePersona b.persona) msgs.dropLast
           last.content (getGreetingResponse env.randIdx))) := by
  simp [runPOST, hm, hl, hg]

/-- Shape of the handler on the non-greeting path. -/
theorem runPOST_normal_eq (env : Env) (b : RequestBody) (msgs : List Message)
    (last : Message) (hm : b.messages = some msgs) (hl : msgs.getLast? = some last)
    (hg : isGreeting last.content = false) :
    runPOST env (some b) =
      ([Event.embedCall last.content, Event.dbCall env.embedResult,
        Event.streamCall
          (updatedMessagesFor env (resolvePersona b.persona) msgs.dropLast last.content)
          b.userId,
        Event.memoryCall
          (updatedMessagesFor env (resolvePersona b.persona) msgs.dropLast last.content)
          b.userId],
       ChatResponse.stream
         (updatedMessagesFor env (resolvePersona b.persona) msgs.dropLast last.content)) := by
  simp [runPOST, hm, hl, hg, getQueryEmbedding]

/-- C1: when the latest user message is classified as a greeting, the trace
of external calls of the request contains no embedding-provider call and no
vector-store query. -/
theorem greeting_never_embeds_or_retrieves (env : Env) (b : RequestBody)
    (msgs : List Message) (last : Message)
    (hm : b.messages = some msgs) (hl : msgs.getLast? = some last)
    (hg : isGreeting last.content = true) :
    ((runPOST env (some b)).1.countP (fun e => e.isEmbed) = 0) ∧
    ((runPOST env (some b)).1.countP (fun e => e.isDb) = 0) := by
  rw [runPOST_greeting_eq env b msgs last hm hl hg]
  exact ⟨rfl, rfl⟩

/-- Witness for C1 at the concrete request `messages = [user "Hello"]`. -/
theorem greeting_never_embeds_or_retrieves_witness :
    ((runPOST ⟨[], [], 0⟩
        (some ⟨some [⟨Role.user, "Hello"⟩], "u1", none⟩)).1.countP
      (fun e => e.isEmbed) = 0) ∧
    ((runPOST ⟨[], [], 0⟩
        (some ⟨some [⟨Role.user, "Hello"⟩], "u1", none⟩)).1.countP
      (fun e => e.isDb) = 0) :=
  greeting_never_embeds_or_retrieves ⟨[], [], 0⟩
    ⟨some [⟨Role.user, "Hello"⟩], "u1", none⟩
    [⟨Role.user, "Hello"⟩] ⟨Role.user, "Hello"⟩ rfl rfl (by decide)

/-- C3: a persona field that is absent, a non-string value, or a string other
than the two known keys resolves to the general persona, so the general
system-prompt template is the one selected. -/
theorem invalid_persona_selects_general_template (p : Option JValue)
    (h : ∀ v, p = some v → isValidPersona v = false) :
    resolvePersona p = Persona.general ∧
    SYSTEM_PROMPTS (resolvePersona p) = generalSystemPrompt := by
  have hres : resolvePersona p = Persona.general := by
    cases p with
    | none => rfl
    | some v =>
      have hv := h v rfl
      simp [resolvePersona, hv]
  exact ⟨hres, by rw [hres]; rfl⟩

/-- Witness for C3 at the concrete persona value `"spanish"`. -/
theorem invalid_persona_selects_general_template_witness :
    resolvePersona (some (JValue.str "spanish")) = Persona.general ∧
    SYSTEM_PROMPTS (resolvePersona (some (JValue.str "spanish"))) =
      generalSystemPrompt :=
  invalid_persona_selects_general_template (some (JValue.str "spanish"))
    (fun v hv => by cases hv; decide)

/-- C4: when retrieval yields the empty context string, the non-greeting
response is still a stream whose system message is the persona template
followed by the bare `Documentation Context: ` label with nothing after it,
and the handler does not return the 500 error response. -/
theorem empty_context_still_streams (env : Env) (b : RequestBody)
    (msgs : List Message) (last : Message)
    (hm : b.messages = some msgs) (hl : msgs.getLast? = some last)
    (hg : isGreeting last.content = false)
    (hempty : findSimilarContent env.dbRows = "") :
    (runPOST env (some b)).2 =
      ChatResponse.stream
        (⟨Role.system,
           SYSTEM_PROMPTS (resolvePersona b.persona) ++ "\n\nDocumentation Context: "⟩ ::
          (msgs.dropLast.map (fun msg => ⟨msg.role, msg.content⟩) ++
            [⟨Role.user, last.content⟩])) ∧
    (runPOST env (some b)).2 ≠ ChatResponse.error500 := by
  rw [runPOST_normal_eq env b msgs last hm hl hg]
  refine ⟨?_, by simp⟩
  simp [updatedMessagesFor, systemPromptFor, hempty, String.append_empty]

/-- Witness for C4: query `"What is AWP?"`, roleplay persona, empty store. -/
theorem empty_context_still_streams_witness :
    (runPOST ⟨[], [], 0⟩
        (some ⟨some [⟨Role.user, "What is AWP?"⟩], "u4",
               some (JValue.str "roleplay")⟩)).2 =
      ChatResponse.stream
        (⟨Role.system,
           SYSTEM_PROMPTS (resolvePersona (some (JValue.str "roleplay"))) ++
             "\n\nDocumentation Context: "⟩ ::
          (([⟨Role.user, "What is AWP?"⟩] : List Message).dropLast.map
              (fun msg => ⟨msg.role, msg.content⟩) ++
            [⟨Role.user, "What is AWP?"⟩])) ∧
    (runPOST ⟨[], [], 0⟩
        (some ⟨some [⟨Role.user, "What is AWP?"⟩], "u4",
               some (JValue.str "roleplay")⟩)).2 ≠ ChatResponse.error500 :=
  empty_context_still_streams ⟨[], [], 0⟩
    ⟨some [⟨Role.user, "What is AWP?"⟩], "u4", some (JValue.str "roleplay")⟩
    [⟨Role.user, "What is AWP?"⟩] ⟨Role.user, "What is AWP?"⟩
    rfl rfl (by decide) rfl

/-- C5 counterexample: for the concrete non-greeting request with the single
message `user "What is AWP?"` (so N = 1), the message list handed to the
memory store has role layout `[system, user]`; the claimed layout, the
original message plus a new assistant turn, would be `[user, assistant]`. -/
theorem memory_roles_counterexample :
    (memoryPayloads (runPOST ⟨[], [], 0⟩
        (some ⟨some [⟨Role.user, "What is AWP?"⟩], "u1", none⟩)).1).map
      (fun l => l.map Message.role) = [[Role.system, Role.user]] := by
  decide

/-- C5 (amended): on the non-greeting path the single memory write receives
a list of length N+1 consisting of the freshly composed system message
followed by the previous messages and a user turn with the latest content;
no new assistant turn is included. -/
theorem memory_sequence_length_and_shape (env : Env) (b : RequestBody)
    (msgs : List Message) (last : Message)
    (hm : b.messages = some msgs) (hl : msgs.getLast? = some last)
    (hg : isGreeting last.content = false) :
    memoryPayloads (runPOST env (some b)).1 =
      [⟨Role.system, systemPromptFor env (resolvePersona b.persona)⟩ ::
        (msgs.dropLast ++ [⟨Role.user, last.content⟩])] ∧
    (memoryPayloads (runPOST env (some b)).1).map List.length =
      [msgs.length + 1] := by
  have hshape := runPOST_normal_eq env b msgs last hm hl hg
  have hne : msgs ≠ [] := by intro hnil; rw [hnil] at hl; simp at hl
  have hlen : 0 < msgs.length := List.length_pos.mpr hne
  have hpay : memoryPayloads (runPOST env (some b)).1 =
      [⟨Role.system, systemPromptFor env (resolvePersona b.persona)⟩ ::
        (msgs.dropLast ++ [⟨Role.user, last.content⟩])] := by
    rw [hshape]
    simp [memoryPayloads, updatedMessagesFor, map_mk_eta]
  refine ⟨hpay, ?_⟩
  rw [hpay]
  simp [List.length_dropLast]
  omega

/-- Witness for the amended C5 at the concrete request `[user "What is AWP?"]`. -/
theorem memory_sequence_length_and_shape_witness :
    memoryPayloads (runPOST ⟨[], [], 0⟩
        (some ⟨some [⟨Role.user, "What is AWP?"⟩], "u5", none⟩)).1 =
      [⟨Role.system, systemPromptFor ⟨[], [], 0⟩ (resolvePersona none)⟩ ::
        ([⟨Role.user, "What is AWP?"⟩].dropLast ++ [⟨Role.user, "What is AWP?"⟩])] ∧
    (memoryPayloads (runPOST ⟨[], [], 0⟩
        (some ⟨some [⟨Role.user, "What is AWP?"⟩], "u5", none⟩)).1).map List.length =
      [[(⟨Role.user, "What is AWP?"⟩ : Message)].length + 1] :=
  memory_sequence_length_and_shape ⟨[], [], 0⟩
    ⟨some [⟨Role.user, "What is AWP?"⟩], "u5", none⟩
    [⟨Role.user, "What is AWP?"⟩] ⟨Role.user, "What is AWP?"⟩
    rfl rfl (by decide)

/-- C6: on the greeting path the reply is one of the five fixed greeting
strings (the one picked by the random index), it is routed through the
completion streamer, and the memory store receives exactly the prior history
with the user greeting and the assistant reply appended. -/
theorem greeting_reply_streamed_and_persisted (env : Env) (b : RequestBody)
    (msgs : List Message) (last : Message)
    (hm : b.messages = some msgs) (hl : msgs.getLast? = some last)
    (hg : isGreeting last.content = true) :
    greetings.length = 5 ∧
    getGreetingResponse env.randIdx ∈ greetings ∧
    (runPOST env (some b)).1 =
      [Event.streamCall
         (greetingStreamMessagesFor (resolvePersona b.persona) msgs.dropLast
           last.content (getGreetingResponse env.randIdx)) b.userId,
       Event.memoryCall
         (msgs.dropLast ++
           [⟨Role.user, last.content⟩,
            ⟨Role.assistant, getGreetingResponse env.randIdx⟩]) b.userId] ∧
    (runPOST env (some b)).2 =
      ChatResponse.stream
        (greetingStreamMessagesFor (resolvePersona b.persona) msgs.dropLast
          last.content (getGreetingResponse env.randIdx)) := by
  have hshape := runPOST_greeting_eq env b msgs last hm hl hg
  have hmem : ∀ r : Fin 5, getGreetingResponse r ∈ greetings := by decide
  refine ⟨rfl, hmem env.randIdx, ?_, ?_⟩
  · rw [hshape]
    simp [greetingMemoryMessagesFor]
  · rw [hshape]

/-- Witness for C6 at the concrete request `[user "Hello"]` with index 3. -/
theorem greeting_reply_streamed_and_persisted_witness :
    greetings.length = 5 ∧
    getGreetingResponse (⟨3, by decide⟩ : Fin 5) ∈ greetings ∧
    (runPOST ⟨[], [], ⟨3, by decide⟩⟩
        (some ⟨some [⟨Role.user, "Hello"⟩], "u6", none⟩)).1 =
      [Event.streamCall
         (greetingStreamMessagesFor (resolvePersona none)
           [(⟨Role.user, "Hello"⟩ : Message)].dropLast "Hello"
           (getGreetingResponse (⟨3, by decide⟩ : Fin 5))) "u6",
       Event.memoryCall
         ([(⟨Role.user, "Hello"⟩ : Message)].dropLast ++
           [⟨Role.user, "Hello"⟩,
            ⟨Role.assistant, getGreetingResponse (⟨3, by decide⟩ : Fin 5)⟩]) "u6"] ∧
    (runPOST ⟨[], [], ⟨3, by decide⟩⟩
        (some ⟨some [⟨Role.user, "Hello"⟩], "u6", none⟩)).2 =
      ChatResponse.stream
        (greetingStreamMessagesFor (resolvePersona none)
          [(⟨Role.user, "Hello"⟩ : Message)].dropLast "Hello"
          (getGreetingResponse (⟨3, by decide⟩ : Fin 5))) :=
  greeting_reply_streamed_and_persisted ⟨[], [], ⟨3, by decide⟩⟩
    ⟨some [⟨Role.user, "Hello"⟩], "u6", none⟩
    [⟨Role.user, "Hello"⟩] ⟨Role.user, "Hello"⟩ rfl rfl (by decide)

/-- C7: a request whose body fails to parse as JSON, or parses without a
messages field, receives the 500 error response and its external-call trace
is empty: no embedding, vector-store, completion, or memory call is made. -/
theorem malformed_body_returns_500_without_calls (env : Env)
    (body : Option RequestBody)
    (h : body = none ∨ ∃ b : RequestBody, body = some b ∧ b.messages = none) :
    runPOST env body = ([], ChatResponse.error500) := by
  rcases h with rfl | ⟨b, rfl, hb⟩
  · rfl
  · simp [runPOST, hb]

/-- Witness for C7 at a body that fails JSON parsing. -/
theorem malformed_body_returns_500_without_calls_witness :
    runPOST ⟨[], [], 0⟩ none = ([], ChatResponse.error500) :=
  malformed_body_returns_500_without_calls ⟨[], [], 0⟩ none (Or.inl rfl)

/-- C8: in the trace of any request, each kind of external call (embedding,
vector-store query, completion, memory write) occurs at most once: nothing
is retried. -/
theorem external_calls_at_most_once (env : Env) (body : Option RequestBody) :
    ((runPOST env body).1.countP (fun e => e.isEmbed) ≤ 1) ∧
    ((runPOST env body).1.countP (fun e => e.isDb) ≤ 1) ∧
    ((runPOST env body).1.countP (fun e => e.isStream) ≤ 1) ∧
    ((runPOST env body).1.countP (fun e => e.isMemory) ≤ 1) := by
  rcases body with _ | b
  · simp [runPOST]
  rcases hm : b.messages with _ | msgs
  · simp [runPOST, hm]
  rcases hl : msgs.getLast? with _ | last
  · simp [runPOST, hm, hl]
  cases hg : isGreeting last.content with
  | true =>
    rw [runPOST_greeting_eq env b msgs last hm hl hg]
    simp [List.countP_cons, Event.isEmbed, Event.isDb, Event.isStream,
      Event.isMemory]
  | false =>
    rw [runPOST_normal_eq env b msgs last hm hl hg]
    simp [List.countP_cons, Event.isEmbed, Event.isDb, Event.isStream,
      Event.isMemory]

/-- C9 counterexample: when the prior history itself contains an assistant
turn, the persisted list does contain an assistant message — its role layout
is `[system, user, assistant, user]`. -/
theorem memory_history_assistant_counterexample :
    (memoryPayloads (runPOST ⟨[], [], 0⟩
        (some ⟨some [⟨Role.user, "What is AWP?"⟩,
                     ⟨Role.assistant, "AWP is a pricing benchmark."⟩,
                     ⟨Role.user, "Tell me more"⟩], "u7", none⟩)).1).map
      (fun l => l.map Message.role) =
      [[Role.system, Role.user, Role.assistant, Role.user]] := by
  decide

/-- C9 (amended): on the non-greeting path the persisted list begins with a
system message carrying the persona template and the Documentation Context,
followed by the prior history and a user turn with the latest query; every
assistant-role message it contains already occurs in the prior history (in
particular the newly generated assistant turn is not persisted). -/
theorem memory_layout_normal_path (env : Env) (b : RequestBody)
    (msgs : List Message) (last : Message)
    (hm : b.messages = some msgs) (hl : msgs.getLast? = some last)
    (hg : isGreeting last.content = false) :
    memoryPayloads (runPOST env (some b)).1 =
      [⟨Role.system, systemPromptFor env (resolvePersona b.persona)⟩ ::
        (msgs.dropLast ++ [⟨Role.user, last.content⟩])] ∧
    ((⟨Role.system, systemPromptFor env (resolvePersona b.persona)⟩ ::
        (msgs.dropLast ++ [⟨Role.user, last.content⟩]) : List Message).filter
      (fun m => m.role = Role.assistant)) =
      msgs.dropLast.filter (fun m => m.role = Role.assistant) := by
  have hshape := runPOST_normal_eq env b msgs last hm hl hg
  constructor
  · rw [hshape]
    simp [memoryPayloads, updatedMessagesFor, map_mk_eta]
  · simp [List.filter_append]

/-- Witness for the amended C9 at a request whose history holds an assistant turn. -/
theorem memory_layout_normal_path_witness :
    memoryPayloads (runPOST ⟨[], [], 0⟩
        (some ⟨some [⟨Role.user, "What is AWP?"⟩,
                     ⟨Role.assistant, "AWP is a pricing benchmark."⟩,
                     ⟨Role.user, "Tell me more"⟩], "u8", none⟩)).1 =
      [⟨Role.system, systemPromptFor ⟨[], [], 0⟩ (resolvePersona none)⟩ ::
        ([⟨Role.user, "What is AWP?"⟩,
          ⟨Role.assistant, "AWP is a pricing benchmark."⟩,
          (⟨Role.user, "Tell me more"⟩ : Message)].dropLast ++
          [⟨Role.user, "Tell me more"⟩])] ∧
    ((⟨Role.system, systemPromptFor ⟨[], [], 0⟩ (resolvePersona none)⟩ ::
        ([⟨Role.user, "What is AWP?"⟩,
          ⟨Role.assistant, "AWP is a pricing benchmark."⟩,
          (⟨Role.user, "Tell me more"⟩ : Message)].dropLast ++
          [⟨Role.user, "Tell me more"⟩]) : List Message).filter
      (fun m => m.role = Role.assistant)) =
      [⟨Role.user, "What is AWP?"⟩,
       ⟨Role.assistant, "AWP is a pricing benchmark."⟩,
       (⟨Role.user, "Tell me more"⟩ : Message)].dropLast.filter
        (fun m => m.role = Role.assistant) :=
  memory_layout_normal_path ⟨[], [], 0⟩
    ⟨some [⟨Role.user, "What is AWP?"⟩,
           ⟨Role.assistant, "AWP is a pricing benchmark."⟩,
           ⟨Role.user, "Tell me more"⟩], "u8", none⟩
    [⟨Role.user, "What is AWP?"⟩,
     ⟨Role.assistant, "AWP is a pricing benchmark."⟩,
     ⟨Role.user, "Tell me more"⟩]
    ⟨Role.user, "Tell me more"⟩ rfl rfl (by decide)

/-- C10: a parsed body whose messages list is empty makes the latest-message
extraction fail, so the handler returns the 500 error response with an empty
external-call trace. -/
theorem empty_messages_returns_500_without_calls (env : Env) (b : RequestBody)
    (h : b.messages = some []) :
    runPOST env (some b) = ([], ChatResponse.error500) := by
  simp [runPOST, h]

/-- Witness for C10 at a body with an empty messages list. -/
theorem empty_messages_returns_500_without_calls_witness :
    runPOST ⟨[], [], 0⟩ (some ⟨some [], "u9", none⟩) =
      ([], ChatResponse.error500) :=
  empty_messages_returns_500_without_calls ⟨[], [], 0⟩ ⟨some [], "u9", none⟩ rfl

end Chat
